import Mathlib

/-!
Verification of the adaptive-assessment core of the LookLearnMaster repository.

The definitions below are shallow embeddings of the Python source:
* `calculate_adaptive_difficulty` embeds `calculate_adaptive_difficulty`
  (ProgreTest Engine/app.py), the adaptive difficulty controller.
* Session bookkeeping (`SessionState`, `submit_answer`, `generate_step`,
  `get_performance_metrics`) embeds the Streamlit session-state updates of
  `init_session_state`, `render_question` and `get_performance_metrics`
  (app.py); the `Reachable` relation captures the states the app can reach.
* `get_weak_topics` embeds `get_weak_topics` (report_generator.py).
* A small JSON parser (`json_loads`) models Python's `json.loads`
  (integer-only numbers; floats never occur in any claim), and
  `_parse_json_response` embeds `AdaptiveLLM._parse_json_response`
  (llm_handler.py) with its two regex fallbacks modelled character by
  character (`extract_fenced`, `brace_span`).
* `generate_question` and `evaluate_answer` embed the corresponding
  `AdaptiveLLM` methods (llm_handler.py); the external chat call is
  abstracted as an input (the raw response text, or a `chat` oracle).
* `revise_validate` embeds the validation portion of the `revise` endpoint
  (snap_learn.py), acting on the already-parsed model response.
-/

namespace LookLearn

/-- Embedding of `calculate_adaptive_difficulty(performance_window, current_difficulty)`
from app.py: below 3 recorded answers the difficulty is held; otherwise the sum
of the last 3 correctness bits drives a guarded ±1 step. -/
def calculate_adaptive_difficulty (performance_window : List Nat)
    (current_difficulty : Nat) : Nat :=
  if performance_window.length < 3 then
    current_difficulty
  else
    let recent := performance_window.drop (performance_window.length - 3)
    let correct_count := recent.sum
    if 2 ≤ correct_count ∧ current_difficulty < 3 then
      current_difficulty + 1
    else if correct_count ≤ 1 ∧ 1 < current_difficulty then
      current_difficulty - 1
    else
      current_difficulty

/-- The transition rule exactly as the spec words it, operating on the last
three entries of the window (a refinement reference for C1). -/
def next_difficulty_spec (window : List Nat) (current : Nat) : Nat :=
  let correct_count := (window.drop (window.length - 3)).sum
  if 2 ≤ correct_count ∧ current < 3 then current + 1
  else if correct_count ≤ 1 ∧ 1 < current then current - 1
  else current

/-- Applying the controller repeatedly, each step appending an arbitrary batch
of correctness bits to the window before recomputing the difficulty. -/
def apply_batches : List Nat → Nat → List (List Nat) → Nat
  | _, d, [] => d
  | w, d, bs :: rest =>
      apply_batches (w ++ bs) (calculate_adaptive_difficulty (w ++ bs) d) rest

/-! Named characters used by the string-processing embeddings. -/

def quoteChar : Char := Char.ofNat 34

def backslashChar : Char := Char.ofNat 92

def lbraceChar : Char := Char.ofNat 123

def rbraceChar : Char := Char.ofNat 125

def backtickChar : Char := Char.ofNat 96

/-- JSON whitespace as accepted by Python's `json.loads` (space, tab, LF, CR). -/
def isJsonWs (c : Char) : Bool :=
  c = ' ' || c = Char.ofNat 9 || c = Char.ofNat 10 || c = Char.ofNat 13

def skipWs : List Char → List Char
  | [] => []
  | c :: rest => if isJsonWs c then skipWs rest else c :: rest

/-- Whitespace in the sense of the regex class `\s` used by
`_parse_json_response`'s fence regex (adds form feed and vertical tab). -/
def isRegexWs (c : Char) : Bool :=
  c = ' ' || c = Char.ofNat 9 || c = Char.ofNat 10 || c = Char.ofNat 13 ||
  c = Char.ofNat 11 || c = Char.ofNat 12

def skipWsRe : List Char → List Char
  | [] => []
  | c :: rest => if isRegexWs c then skipWsRe rest else c :: rest

/-- JSON values as produced by `json.loads` (numbers restricted to integers;
no claim involves fractional numbers). -/
inductive Json where
  | null : Json
  | bool (b : Bool) : Json
  | num (n : Int) : Json
  | str (s : String) : Json
  | arr (xs : List Json) : Json
  | obj (kvs : List (String × Json)) : Json

def hexDigitVal (c : Char) : Option Nat :=
  if '0' ≤ c ∧ c ≤ '9' then some (c.toNat - 48)
  else if 'a' ≤ c ∧ c ≤ 'f' then some (c.toNat - 87)
  else if 'A' ≤ c ∧ c ≤ 'F' then some (c.toNat - 55)
  else none

def escapeChar (e : Char) : Option Char :=
  if e = quoteChar then some quoteChar
  else if e = backslashChar then some backslashChar
  else if e = '/' then some '/'
  else if e = 'n' then some (Char.ofNat 10)
  else if e = 't' then some (Char.ofNat 9)
  else if e = 'r' then some (Char.ofNat 13)
  else if e = 'b' then some (Char.ofNat 8)
  else if e = 'f' then some (Char.ofNat 12)
  else none

/-- Parse the body of a JSON string, after the opening quote; returns the
decoded characters and the remaining input after the closing quote. -/
def parseStringChars : List Char → Option (List Char × List Char)
  | [] => none
  | c :: rest =>
    if c = quoteChar then some ([], rest)
    else if c = backslashChar then
      match rest with
      | [] => none
      | e :: rest2 =>
        if e = 'u' then
          match rest2 with
          | h1 :: h2 :: h3 :: h4 :: rest3 =>
            match hexDigitVal h1, hexDigitVal h2, hexDigitVal h3, hexDigitVal h4 with
            | some a, some b, some c3, some d =>
              let n := ((a * 16 + b) * 16 + c3) * 16 + d
              if n < 55296 then
                (parseStringChars rest3).map (fun p => (Char.ofNat n :: p.1, p.2))
              else none
            | _, _, _, _ => none
          | _ => none
        else
          match escapeChar e with
          | some ec => (parseStringChars rest2).map (fun p => (ec :: p.1, p.2))
          | none => none
    else if c.toNat < 32 then none
    else (parseStringChars rest).map (fun p => (c :: p.1, p.2))

/-- Collect a maximal run of leading decimal digits. -/
def parseDigits : List Char → (List Nat × List Char)
  | [] => ([], [])
  | c :: rest =>
    if c.isDigit then
      let p := parseDigits rest
      ((c.toNat - 48) :: p.1, p.2)
    else ([], c :: rest)

def natOfDigits (ds : List Nat) : Nat :=
  ds.foldl (fun a d => a * 10 + d) 0

/-- Parse a JSON integer (optional minus sign, digit run); a following
`.`/`e`/`E` would start a float, which this model does not accept. -/
def parseNumber (cs : List Char) : Option (Json × List Char) :=
  let p := match cs with
    | c :: rest => if c = '-' then (true, rest) else (false, cs)
    | [] => (false, cs)
  match parseDigits p.2 with
  | ([], _) => none
  | (d :: ds, rest) =>
    let v : Int := Int.ofNat (natOfDigits (d :: ds))
    let j := Json.num (if p.1 then -v else v)
    match rest with
    | c :: _ => if c = '.' ∨ c = 'e' ∨ c = 'E' then none else some (j, rest)
    | [] => some (j, [])

mutual

/-- Recursive-descent JSON value parser (fuel-indexed). -/
def parseValue : Nat → List Char → Option (Json × List Char)
  | 0, _ => none
  | Nat.succ fuel, cs =>
    match skipWs cs with
    | 'n' :: 'u' :: 'l' :: 'l' :: rest => some (Json.null, rest)
    | 't' :: 'r' :: 'u' :: 'e' :: rest => some (Json.bool true, rest)
    | 'f' :: 'a' :: 'l' :: 's' :: 'e' :: rest => some (Json.bool false, rest)
    | c :: rest =>
      if c = quoteChar then
        (parseStringChars rest).map (fun p => (Json.str (String.mk p.1), p.2))
      else if c = '[' then
        match skipWs rest with
        | d :: rest2 =>
          if d = ']' then some (Json.arr [], rest2)
          else (parseArrayItems fuel (d :: rest2)).map (fun p => (Json.arr p.1, p.2))
        | [] => none
      else if c = lbraceChar then
        match skipWs rest with
        | d :: rest2 =>
          if d = rbraceChar then some (Json.obj [], rest2)
          else (parseObjItems fuel (d :: rest2)).map (fun p => (Json.obj p.1, p.2))
        | [] => none
      else
        parseNumber (c :: rest)
    | [] => none

/-- Comma-separated items of a JSON array, up to the closing bracket. -/
def parseArrayItems : Nat → List Char → Option (List Json × List Char)
  | 0, _ => none
  | Nat.succ fuel, cs =>
    match parseValue fuel cs with
    | none => none
    | some (v, r) =>
      match skipWs r with
      | c :: rest =>
        if c = ',' then (parseArrayItems fuel rest).map (fun p => (v :: p.1, p.2))
        else if c = ']' then some ([v], rest)
        else none
      | [] => none

/-- Comma-separated key/value pairs of a JSON object, up to the closing brace. -/
def parseObjItems : Nat → List Char → Option (List (String × Json) × List Char)
  | 0, _ => none
  | Nat.succ fuel, cs =>
    match skipWs cs with
    | c :: rest =>
      if c = quoteChar then
        match parseStringChars rest with
        | none => none
        | some (key, r1) =>
          match skipWs r1 with
          | c2 :: r2 =>
            if c2 = ':' then
              match parseValue fuel r2 with
              | none => none
              | some (v, r3) =>
                match skipWs r3 with
                | c3 :: r4 =>
                  if c3 = ',' then
                    (parseObjItems fuel r4).map
                      (fun p => ((String.mk key, v) :: p.1, p.2))
                  else if c3 = rbraceChar then some ([(String.mk key, v)], r4)
                  else none
                | [] => none
            else none
          | [] => none
      else none
    | [] => none

end

/-- Model of Python's `json.loads`: parse one value and require only
whitespace to remain. -/
def json_loads (s : String) : Option Json :=
  let cs := s.data
  match parseValue (2 * cs.length + 2) cs with
  | some (j, rest) => if skipWs rest = [] then some j else none
  | none => none

/-- Drop input up to and including the first triple-backtick fence. -/
def afterFence : List Char → Option (List Char)
  | c1 :: c2 :: c3 :: rest =>
    if c1 = backtickChar ∧ c2 = backtickChar ∧ c3 = backtickChar then some rest
    else afterFence (c2 :: c3 :: rest)
  | _ => none

/-- Split input at the next triple-backtick fence: content before it and
input after it. -/
def untilFence : List Char → Option (List Char × List Char)
  | c1 :: c2 :: c3 :: rest =>
    if c1 = backtickChar ∧ c2 = backtickChar ∧ c3 = backtickChar then some ([], rest)
    else (untilFence (c2 :: c3 :: rest)).map (fun p => (c1 :: p.1, p.2))
  | _ => none

/-- The fenced-code-block fallback of `_parse_json_response`, i.e. the match
group of the regex searching for three backticks, an optional `json` tag,
then a lazily-matched body up to the closing fence, with surrounding
whitespace stripped by the greedy `\s*` parts. -/
def extract_fenced (s : String) : Option String :=
  match afterFence s.data with
  | none => none
  | some rest =>
    let rest1 := match rest with
      | 'j' :: 's' :: 'o' :: 'n' :: r => r
      | _ => rest
    match untilFence (skipWsRe rest1) with
    | none => none
    | some p => some (String.mk ((skipWsRe p.1.reverse).reverse))

/-- The brace-span fallback of `_parse_json_response`: the substring from the
first left brace through the last right brace, when the former precedes the
latter (the match of the greedy brace regex). -/
def brace_span (s : String) : Option String :=
  match s.data.findIdx? (fun c => c = lbraceChar) with
  | none => none
  | some i =>
    match s.data.reverse.findIdx? (fun c => c = rbraceChar) with
    | none => none
    | some k =>
      let j := s.data.length - 1 - k
      if i < j then some (String.mk ((s.data.drop i).take (j - i + 1))) else none

/-- Embedding of `AdaptiveLLM._parse_json_response` (llm_handler.py): try a
direct parse, then the fenced block, then the brace span; `none` models the
final `ValueError`. -/
def _parse_json_response (response_text : String) : Option Json :=
  match json_loads response_text with
  | some j => some j
  | none =>
    match (extract_fenced response_text).bind json_loads with
    | some j => some j
    | none => (brace_span response_text).bind json_loads

/-- First successful outcome in a list of parse attempts. -/
def firstSuccess : List (Option Json) → Option Json
  | [] => none
  | some j :: _ => some j
  | none :: rest => firstSuccess rest

/-- The spec's formulation of the recovery chain: an explicit ordered list of
strategies, first success wins (a refinement reference for C7). -/
def parse_structured_response_spec (t : String) : Option Json :=
  firstSuccess
    [json_loads t, (extract_fenced t).bind json_loads, (brace_span t).bind json_loads]

/-- The spec's fenced-response scenario text. -/
def fence3 : String := String.mk [backtickChar, backtickChar, backtickChar]

def fenced_example : String :=
  "Here you go:\n" ++ fence3 ++ "json\n\x7b\"question\":\"Q\"\x7d\n" ++ fence3

/-- A raw model response that is plain prose with no JSON at all. -/
def prose_example : String :=
  "Sorry, I cannot produce structured output right now."

def jsonLookup (j : Json) (key : String) : Option Json :=
  match j with
  | Json.obj kvs => (kvs.find? (fun kv => kv.1 = key)).map (fun kv => kv.2)
  | _ => none

/-- `question_data.get(key, dflt)` for string-valued fields. -/
def jsonGetStr (j : Json) (key : String) (dflt : String) : String :=
  match jsonLookup j key with
  | some (Json.str s) => s
  | _ => dflt

/-- `question_data.get('options', {})` as an ordered key/text mapping. -/
def jsonGetOptions (j : Json) : List (String × String) :=
  match jsonLookup j "options" with
  | some (Json.obj kvs) =>
      kvs.map (fun kv => (kv.1, match kv.2 with | Json.str s => s | _ => ""))
  | _ => []

/-- `AdaptiveLLM.DIFFICULTY_LEVELS.get(difficulty, "medium")`. -/
def DIFFICULTY_LEVELS (d : Nat) : String :=
  if d = 1 then "easy" else if d = 2 then "medium" else if d = 3 then "hard"
  else "medium"

/-- A question as produced by `AdaptiveLLM.generate_question`: either a normal
question or (with `error = true`) the sentinel error record. -/
structure QuestionRecord where
  question : String
  options : List (String × String)
  correct_answer : String
  explanation : String
  topic : String
  difficulty : Nat
  difficulty_name : String
  error : Bool
  error_message : String
deriving DecidableEq

/-- Embedding of `AdaptiveLLM.generate_question` (llm_handler.py) with the raw
chat response given as input: on a parse failure the method returns the
sentinel error record built in its `except` branch. -/
def generate_question (difficulty : Nat) (response_text : String) : QuestionRecord :=
  match _parse_json_response response_text with
  | some j =>
      { question := jsonGetStr j "question" ""
        options := jsonGetOptions j
        correct_answer := jsonGetStr j "correct_answer" ""
        explanation := jsonGetStr j "explanation" ""
        topic := jsonGetStr j "topic" "General"
        difficulty := difficulty
        difficulty_name := DIFFICULTY_LEVELS difficulty
        error := false
        error_message := "" }
  | none =>
      { question := "Error: " ++ "Could not parse JSON from response"
        options := [("A", "Option A"), ("B", "Option B"), ("C", "Option C"),
                    ("D", "Option D")]
        correct_answer := "A"
        explanation := "Error details: " ++ "Could not parse JSON from response"
        topic := "Unknown"
        difficulty := difficulty
        difficulty_name := DIFFICULTY_LEVELS difficulty
        error := true
        error_message := "Could not parse JSON from response" }

/-- One answered question as appended to `st.session_state.questions_history`. -/
structure HistoryEntry where
  question : String
  topic : String
  difficulty : Nat
  user_answer : String
  correct_answer : String
  is_correct : Bool
  explanation : String
deriving DecidableEq

/-- The assessment-relevant part of the Streamlit session state. -/
structure SessionState where
  current_question : Option QuestionRecord
  questions_history : List HistoryEntry
  current_difficulty : Nat
  performance_window : List Nat
  total_questions : Nat
  correct_answers : Nat
  asked_questions : List String
  max_difficulty_reached : Nat
deriving DecidableEq

/-- The defaults installed by `init_session_state` (app.py). -/
def init_session_state : SessionState :=
  { current_question := none
    questions_history := []
    current_difficulty := 1
    performance_window := []
    total_questions := 0
    correct_answers := 0
    asked_questions := []
    max_difficulty_reached := 1 }

/-- The question-generation step of `render_question`: produce a question at
the current difficulty and remember it. -/
def generate_step (s : SessionState) (response_text : String) : SessionState :=
  let q := generate_question s.current_difficulty response_text
  { s with
    current_question := some q
    asked_questions := s.asked_questions ++ [q.question] }

/-- The submit-answer step of `render_question`: bump the counters, append the
correctness bit, recompute the difficulty, raise the watermark, and append the
history entry. -/
def submit_answer (s : SessionState) (q : QuestionRecord) (user_answer : String)
    (is_correct : Bool) : SessionState :=
  let window := s.performance_window ++ [if is_correct then 1 else 0]
  let new_difficulty := calculate_adaptive_difficulty window s.current_difficulty
  { s with
    total_questions := s.total_questions + 1
    correct_answers := s.correct_answers + (if is_correct then 1 else 0)
    performance_window := window
    max_difficulty_reached :=
      if s.max_difficulty_reached < new_difficulty then new_difficulty
      else s.max_difficulty_reached
    questions_history := s.questions_history ++
      [{ question := q.question
         topic := q.topic
         difficulty := q.difficulty
         user_answer := user_answer
         correct_answer := q.correct_answer
         is_correct := is_correct
         explanation := q.explanation }]
    current_difficulty := new_difficulty }

/-- Session states reachable by the app: start from the defaults, generate
questions, and answer the currently displayed (non-error) question. -/
inductive Reachable : SessionState → Prop
  | init : Reachable init_session_state
  | generate (s : SessionState) (raw : String) :
      Reachable s → Reachable (generate_step s raw)
  | submit (s : SessionState) (q : QuestionRecord) (ua : String) (ic : Bool) :
      Reachable s → s.current_question = some q → q.error = false →
      Reachable (submit_answer s q ua ic)

/-- The dictionary returned by `get_performance_metrics` (app.py). -/
structure Metrics where
  total_questions : Nat
  correct_answers : Nat
  accuracy : ℚ
  avg_difficulty : ℚ
  max_difficulty_reached : Nat
  current_difficulty : Nat
deriving DecidableEq

/-- Embedding of `get_performance_metrics` (app.py). -/
def get_performance_metrics (s : SessionState) : Metrics :=
  let total := s.total_questions
  let correct := s.correct_answers
  if total = 0 then
    { total_questions := total
      correct_answers := correct
      accuracy := 0
      avg_difficulty := 1
      max_difficulty_reached := s.max_difficulty_reached
      current_difficulty := s.current_difficulty }
  else
    let difficulties : List Nat := s.questions_history.map (fun q => q.difficulty)
    { total_questions := total
      correct_answers := correct
      accuracy := ((correct : ℚ) / (total : ℚ)) * 100
      avg_difficulty :=
        if difficulties = [] then 1
        else ((difficulties.sum : ℚ) / (difficulties.length : ℚ))
      max_difficulty_reached := s.max_difficulty_reached
      current_difficulty := s.current_difficulty }

/-- The loop body of `get_weak_topics` (report_generator.py). -/
def weak_step (weak_topics : List String) (q : HistoryEntry) : List String :=
  if q.is_correct then weak_topics
  else if q.topic ∈ weak_topics then weak_topics
  else weak_topics ++ [q.topic]

/-- Embedding of `get_weak_topics` (report_generator.py). -/
def get_weak_topics (questions_history : List HistoryEntry) : List String :=
  questions_history.foldl weak_step []

/-- Accumulate a topic unless it has been seen already. -/
def topic_step (acc : List String) (t : String) : List String :=
  if t ∈ acc then acc else acc ++ [t]

/-- Keep the first occurrence of every element, in order. -/
def dedupFirst : List String → List String
  | [] => []
  | t :: ts => t :: dedupFirst (ts.filter (fun u => u ≠ t))
termination_by l => l.length
decreasing_by
  simp only [List.length_cons]
  exact Nat.lt_succ_of_le (List.length_filter_le _ _)

/-- The spec's description of `weak_topics`: topics of incorrect entries, in
first-incorrect-occurrence order, without duplicates (a refinement reference
for C6). -/
def weak_topics_spec (h : List HistoryEntry) : List String :=
  dedupFirst ((h.filter (fun e => !e.is_correct)).map (fun e => e.topic))

/-- A history entry with only the fields the weak-topic and metric claims
inspect varying. -/
def mkEntry (topic : String) (difficulty : Nat) (is_correct : Bool) : HistoryEntry :=
  { question := "q"
    topic := topic
    difficulty := difficulty
    user_answer := "A"
    correct_answer := "A"
    is_correct := is_correct
    explanation := "" }

/-- The spec's weak-topic scenario history. -/
def example_history : List HistoryEntry :=
  [mkEntry "T1" 1 true, mkEntry "T2" 1 false, mkEntry "T1" 1 false,
   mkEntry "T3" 1 false]

/-- A session state after two answers (one correct), used as a witness. -/
def metrics_example_state : SessionState :=
  { current_question := none
    questions_history := [mkEntry "T1" 2 true, mkEntry "T2" 3 false]
    current_difficulty := 2
    performance_window := [1, 0]
    total_questions := 2
    correct_answers := 1
    asked_questions := []
    max_difficulty_reached := 2 }

/-- One MCQ of the quick-revision response (snap_learn.py). -/
structure MCQ where
  question : String
  options : List String
  correctAnswer : String
deriving DecidableEq

/-- The parsed quick-revision model response: `key_concepts` (concept and
explanation), `formulas`, `mcqs`; a missing key models as the empty list,
matching `parsed.get("mcqs", [])` and the falsiness test on `key_concepts`. -/
structure ParsedAnalysis where
  key_concepts : List (String × String)
  formulas : List String
  mcqs : List MCQ
deriving DecidableEq

/-- The validation portion of the `revise` endpoint (snap_learn.py), acting on
the already-parsed response: reject empty key concepts, reject fewer than 10
MCQs, and truncate more than 10 MCQs to exactly 10. -/
def revise_validate (parsed : ParsedAnalysis) : Except String ParsedAnalysis :=
  if parsed.key_concepts = [] then Except.error "No key concepts generated"
  else if parsed.mcqs.length < 10 then
    Except.error ("AI returned only " ++ toString parsed.mcqs.length ++ " MCQs")
  else Except.ok { parsed with mcqs := parsed.mcqs.take 10 }

def mcq4 : MCQ :=
  { question := "q", options := ["A) a", "B) b", "C) c", "D) d"], correctAnswer := "A" }

/-- An MCQ carrying only three options instead of four. -/
def mcq3 : MCQ :=
  { question := "q3", options := ["A) a", "B) b", "C) c"], correctAnswer := "A" }

/-- Ten MCQs, the first with the wrong option count. -/
def wrong_option_count_input : ParsedAnalysis :=
  { key_concepts := [("Concept", "Explanation")]
    formulas := []
    mcqs := mcq3 :: List.replicate 9 mcq4 }

/-- Eleven well-formed MCQs (one more than required). -/
def eleven_mcq_input : ParsedAnalysis :=
  { key_concepts := [("Concept", "Explanation")]
    formulas := []
    mcqs := List.replicate 11 mcq4 }

/-- The dictionary returned by `AdaptiveLLM.evaluate_answer`. -/
structure Feedback where
  is_correct : Bool
  feedback : String
  suggestion : Option String
deriving DecidableEq

/-- `options.get(k, dflt)`. -/
def optGet (options : List (String × String)) (k : String) (dflt : String) : String :=
  match options.find? (fun kv => kv.1 = k) with
  | some kv => kv.2
  | none => dflt

def apostrophe : String := String.mk [Char.ofNat 39]

/-- The fixed feedback returned for every correct answer. -/
def success_feedback_text : String := "Correct! Well done! 🎉"

/-- The feedback prompt `evaluate_answer` sends for an incorrect answer. -/
def feedback_prompt (question user_answer correct_answer : String)
    (options : List (String × String)) : String :=
  "The student answered a question incorrectly. Provide helpful, encouraging feedback.\n\n" ++
  "QUESTION: " ++ question ++ "\n\n" ++
  "STUDENT" ++ apostrophe ++ "S ANSWER: " ++ user_answer ++ " - " ++
    optGet options user_answer "Unknown" ++ "\n" ++
  "CORRECT ANSWER: " ++ correct_answer ++ " - " ++
    optGet options correct_answer "Unknown" ++ "\n\n" ++
  "Provide a brief, encouraging explanation (2-3 sentences) of:\n" ++
  "1. Why the correct answer is right\n" ++
  "2. A tip to remember this concept\n\n" ++
  "Keep it supportive and educational. Do not be discouraging."

/-- Python's `str.upper()` on the option letters compared by
`evaluate_answer` (modelled as a per-character upper-casing). -/
def str_upper (s : String) : String := String.mk (s.data.map Char.toUpper)

/-- Embedding of `AdaptiveLLM.evaluate_answer` (llm_handler.py). The external
`_call_chat` is abstracted as the `chat` oracle (`Except.error` models a
raised exception); the `content` argument is accepted and, as in the source,
never used. -/
def evaluate_answer (chat : String → Except String String)
    (question user_answer correct_answer : String)
    (options : List (String × String)) (content : String) : Feedback :=
  if str_upper user_answer = str_upper correct_answer then
    { is_correct := true
      feedback := success_feedback_text
      suggestion := none }
  else
    match chat (feedback_prompt question user_answer correct_answer options) with
    | Except.ok fb =>
        { is_correct := false
          feedback := fb
          suggestion := some ("Review the topic related to: " ++
            optGet options correct_answer "this concept") }
    | Except.error _ =>
        { is_correct := false
          feedback := "The correct answer was " ++ correct_answer ++ ": " ++
            optGet options correct_answer ""
          suggestion := some "Review this topic for better understanding." }

/-- A chat oracle whose call always fails. -/
def chat_fail : String → Except String String := fun _ => Except.error "unavailable"

/-- A chat oracle that echoes its prompt. -/
def chat_echo : String → Except String String := fun p => Except.ok p

end LookLearn

namespace LookLearn

lemma calculate_adaptive_difficulty_mem_range (w : List Nat) (d : Nat)
    (h1 : 1 ≤ d) (h3 : d ≤ 3) :
    1 ≤ calculate_adaptive_difficulty w d ∧ calculate_adaptive_difficulty w d ≤ 3 := by
  unfold calculate_adaptive_difficulty
  dsimp only
  split_ifs <;> omega

lemma generate_question_difficulty (d : Nat) (raw : String) :
    (generate_question d raw).difficulty = d := by
  unfold generate_question
  split <;> rfl

lemma reachable_peak_aux (s : SessionState) (hs : Reachable s) :
    s.current_difficulty ≤ s.max_difficulty_reached ∧
    (∀ q, s.current_question = some q → q.difficulty ≤ s.max_difficulty_reached) ∧
    (∀ e ∈ s.questions_history, e.difficulty ≤ s.max_difficulty_reached) := by
  induction hs with
  | init =>
      refine ⟨le_refl 1, fun q hq => ?_, fun e he => ?_⟩
      · simp [init_session_state] at hq
      · simp [init_session_state] at he
  | generate s raw _ ih =>
      obtain ⟨h1, _, h3⟩ := ih
      refine ⟨h1, fun q hq => ?_, h3⟩
      have hq' : some (generate_question s.current_difficulty raw) = some q := hq
      obtain rfl := Option.some.inj hq'
      rw [generate_question_difficulty]
      exact h1
  | submit s q ua ic _ hq herr ih =>
      obtain ⟨h1, h2, h3⟩ := ih
      have hqd : q.difficulty ≤ s.max_difficulty_reached := h2 q hq
      have hmono : s.max_difficulty_reached ≤ (submit_answer s q ua ic).max_difficulty_reached := by
        dsimp only [submit_answer]
        split_ifs <;> omega
      have hcur : (submit_answer s q ua ic).current_difficulty ≤
          (submit_answer s q ua ic).max_difficulty_reached := by
        dsimp only [submit_answer]
        split_ifs <;> omega
      refine ⟨hcur, fun q2 hq2 => ?_, fun e he => ?_⟩
      · have hq2' : s.current_question = some q2 := hq2
        obtain rfl := Option.some.inj (hq.symm.trans hq2')
        exact hqd.trans hmono
      · have he' : e ∈ s.questions_history ++
            [{ question := q.question
               topic := q.topic
               difficulty := q.difficulty
               user_answer := ua
               correct_answer := q.correct_answer
               is_correct := ic
               explanation := q.explanation }] := he
        rcases List.mem_append.mp he' with hmem | hmem
        · exact (h3 e hmem).trans hmono
        · obtain rfl := List.mem_singleton.mp hmem
          exact hqd.trans hmono

end LookLearn

/-- C1: for windows of length ≥ 3 and current difficulty in `{1,2,3}`,
`calculate_adaptive_difficulty` looks only at the last 3 entries; with
`correct_count` their sum, it returns `current + 1` when `correct_count ≥ 2`
and `current < 3`, `current - 1` when `correct_count ≤ 1` and `current > 1`,
and `current` otherwise; the scenarios `[1,1,0]` at 1, `[0,0,1]` at 2 and
`[1,0,1,0,1]` at 2 yield 2, 1 and 3 respectively. -/
theorem LookLearn.adaptive_difficulty_rule (w : List Nat) (d : Nat)
    (hlen : 3 ≤ w.length) (h1 : 1 ≤ d) (h3 : d ≤ 3) :
    calculate_adaptive_difficulty w d = next_difficulty_spec w d ∧
    calculate_adaptive_difficulty [1, 1, 0] 1 = 2 ∧
    calculate_adaptive_difficulty [0, 0, 1] 2 = 1 ∧
    calculate_adaptive_difficulty [1, 0, 1, 0, 1] 2 = 3 := by
  refine ⟨?_, by decide, by decide, by decide⟩
  unfold calculate_adaptive_difficulty next_difficulty_spec
  have : ¬ w.length < 3 := by omega
  simp [this]

/-- Witness for C1 at the concrete window `[1,0,1,0,1]` and difficulty 2. -/
theorem LookLearn.adaptive_difficulty_rule_witness :
    LookLearn.calculate_adaptive_difficulty [1, 0, 1, 0, 1] 2 =
      LookLearn.next_difficulty_spec [1, 0, 1, 0, 1] 2 ∧
    LookLearn.calculate_adaptive_difficulty [1, 0, 1, 0, 1] 2 = 3 :=
  ⟨(LookLearn.adaptive_difficulty_rule [1, 0, 1, 0, 1] 2 (by decide) (by decide)
      (by decide)).1,
   (LookLearn.adaptive_difficulty_rule [1, 0, 1, 0, 1] 2 (by decide) (by decide)
      (by decide)).2.2.2⟩

/-- C2: for current difficulty in `{1,2,3}` and a window shorter than 3,
`calculate_adaptive_difficulty` returns the current difficulty unchanged. -/
theorem LookLearn.adaptive_difficulty_short_window (w : List Nat) (d : Nat)
    (hlen : w.length < 3) (h1 : 1 ≤ d) (h3 : d ≤ 3) :
    calculate_adaptive_difficulty w d = d := by
  unfold calculate_adaptive_difficulty
  simp [hlen]

/-- Witness for C2 at window `[1]` and difficulty 2. -/
theorem LookLearn.adaptive_difficulty_short_window_witness :
    LookLearn.calculate_adaptive_difficulty [1] 2 = 2 :=
  LookLearn.adaptive_difficulty_short_window [1] 2 (by decide) (by decide) (by decide)

/-- C3: for current difficulty in `{1,2,3}` and any window, the controller's
result lies in `[1,3]`, and iterating it — appending an arbitrary batch of
bits to the window before each step — never leaves `[1,3]`. -/
theorem LookLearn.adaptive_difficulty_bounded (w : List Nat) (d : Nat)
    (batches : List (List Nat)) (h1 : 1 ≤ d) (h3 : d ≤ 3) :
    (1 ≤ calculate_adaptive_difficulty w d ∧ calculate_adaptive_difficulty w d ≤ 3) ∧
    (1 ≤ apply_batches w d batches ∧ apply_batches w d batches ≤ 3) := by
  refine ⟨calculate_adaptive_difficulty_mem_range w d h1 h3, ?_⟩
  induction batches generalizing w d with
  | nil => exact ⟨h1, h3⟩
  | cons bs rest ih =>
      have hstep := calculate_adaptive_difficulty_mem_range (w ++ bs) d h1 h3
      exact ih (w ++ bs) (calculate_adaptive_difficulty (w ++ bs) d) hstep.1 hstep.2

/-- Witness for C3: starting at difficulty 1 with an empty window, three
batches of answers keep the difficulty within `[1,3]`. -/
theorem LookLearn.adaptive_difficulty_bounded_witness :
    (1 ≤ LookLearn.calculate_adaptive_difficulty [] 1 ∧
      LookLearn.calculate_adaptive_difficulty [] 1 ≤ 3) ∧
    (1 ≤ LookLearn.apply_batches [] 1 [[1, 1, 1], [1], [0, 0, 0]] ∧
      LookLearn.apply_batches [] 1 [[1, 1, 1], [1], [0, 0, 0]] ≤ 3) :=
  LookLearn.adaptive_difficulty_bounded [] 1 [[1, 1, 1], [1], [0, 0, 0]]
    (by decide) (by decide)

/-- C4: in every session state reachable from the initial state by generating
questions and recording answers, the peak-difficulty watermark is at least the
current difficulty and at least every difficulty recorded in the history. -/
theorem LookLearn.peak_difficulty_watermark (s : SessionState) (hs : Reachable s) :
    s.current_difficulty ≤ s.max_difficulty_reached ∧
    ∀ e ∈ s.questions_history, e.difficulty ≤ s.max_difficulty_reached :=
  ⟨(reachable_peak_aux s hs).1, (reachable_peak_aux s hs).2.2⟩

/-- Witness for C4 at the initial session state. -/
theorem LookLearn.peak_difficulty_watermark_witness :
    LookLearn.init_session_state.current_difficulty ≤
      LookLearn.init_session_state.max_difficulty_reached :=
  (LookLearn.peak_difficulty_watermark LookLearn.init_session_state
    LookLearn.Reachable.init).1

/-- C5: `get_performance_metrics` returns accuracy 0 and mean difficulty 1 on
an empty record (no division by zero), and otherwise `100 * correct / total`
and the arithmetic mean of the recorded difficulties; it is pure, so two calls
on the same state agree. -/
theorem LookLearn.performance_metrics_values (s : SessionState)
    (hc : s.total_questions = s.questions_history.length) :
    (s.total_questions = 0 →
      (get_performance_metrics s).accuracy = 0 ∧
      (get_performance_metrics s).avg_difficulty = 1) ∧
    (s.total_questions ≠ 0 →
      (get_performance_metrics s).accuracy =
        100 * (s.correct_answers : ℚ) / (s.total_questions : ℚ) ∧
      (get_performance_metrics s).avg_difficulty =
        ((s.questions_history.map (fun e => e.difficulty)).sum : ℚ) /
          (s.questions_history.length : ℚ)) ∧
    get_performance_metrics s = get_performance_metrics s := by
  refine ⟨fun h0 => ?_, fun h0 => ?_, rfl⟩
  · constructor <;> simp [get_performance_metrics, h0]
  · have hne : s.questions_history ≠ [] := by
      intro hnil
      rw [hnil] at hc
      simp at hc
      exact h0 hc
    have hmapne : s.questions_history.map (fun q => q.difficulty) ≠ [] := by
      simpa using hne
    constructor
    · unfold get_performance_metrics
      rw [if_neg h0]
      dsimp only
      ring
    · unfold get_performance_metrics
      rw [if_neg h0]
      dsimp only
      rw [if_neg hmapne, List.length_map]
      push_cast
      rw [List.map_map]
      rfl

/-- Witness for C5: the empty state divides by nothing, and a two-answer state
has accuracy 50% and mean difficulty 5/2. -/
theorem LookLearn.performance_metrics_values_witness :
    ((LookLearn.get_performance_metrics LookLearn.init_session_state).accuracy = 0 ∧
      (LookLearn.get_performance_metrics LookLearn.init_session_state).avg_difficulty = 1) ∧
    ((LookLearn.get_performance_metrics LookLearn.metrics_example_state).accuracy =
        100 * (LookLearn.metrics_example_state.correct_answers : ℚ) /
          (LookLearn.metrics_example_state.total_questions : ℚ) ∧
      (LookLearn.get_performance_metrics LookLearn.metrics_example_state).avg_difficulty =
        ((LookLearn.metrics_example_state.questions_history.map
            (fun e => e.difficulty)).sum : ℚ) /
          (LookLearn.metrics_example_state.questions_history.length : ℚ)) :=
  ⟨(LookLearn.performance_metrics_values LookLearn.init_session_state rfl).1 rfl,
   (LookLearn.performance_metrics_values LookLearn.metrics_example_state rfl).2.1
     (by decide)⟩

namespace LookLearn

lemma mem_dedupFirst (x : String) : ∀ l : List String, x ∈ dedupFirst l ↔ x ∈ l := by
  intro l
  induction l using dedupFirst.induct with
  | case1 => simp [dedupFirst]
  | case2 t ts ih =>
      rw [dedupFirst]
      simp only [List.mem_cons, ih, List.mem_filter]
      by_cases hxt : x = t
      · simp [hxt]
      · simp [hxt]

lemma nodup_dedupFirst : ∀ l : List String, (dedupFirst l).Nodup := by
  intro l
  induction l using dedupFirst.induct with
  | case1 => simp [dedupFirst]
  | case2 t ts ih =>
      rw [dedupFirst]
      refine List.nodup_cons.mpr ⟨fun hmem => ?_, ih⟩
      rw [mem_dedupFirst] at hmem
      simp [List.mem_filter] at hmem

lemma foldl_weak_eq (h : List HistoryEntry) :
    ∀ acc, h.foldl weak_step acc =
      ((h.filter (fun e => !e.is_correct)).map (fun e => e.topic)).foldl topic_step acc := by
  induction h with
  | nil => intro acc; rfl
  | cons e h ih =>
      intro acc
      cases hce : e.is_correct with
      | true =>
          rw [List.foldl_cons, ih]
          have h1 : weak_step acc e = acc := by simp [weak_step, hce]
          rw [h1, List.filter_cons]
          simp [hce]
      | false =>
          rw [List.foldl_cons, ih]
          have h1 : weak_step acc e = topic_step acc e.topic := by
            simp [weak_step, topic_step, hce]
          rw [h1, List.filter_cons]
          simp only [hce, Bool.not_false, if_true, List.map_cons, List.foldl_cons]

lemma foldl_topic_eq (l : List String) :
    ∀ acc, l.foldl topic_step acc =
      acc ++ dedupFirst (l.filter (fun t => decide (t ∉ acc))) := by
  induction l with
  | nil => intro acc; simp [dedupFirst]
  | cons t l ih =>
      intro acc
      by_cases ht : t ∈ acc
      · rw [List.foldl_cons]
        have h1 : topic_step acc t = acc := by simp [topic_step, ht]
        rw [h1, ih, List.filter_cons]
        simp [ht]
      · rw [List.foldl_cons]
        have h1 : topic_step acc t = acc ++ [t] := by simp [topic_step, ht]
        rw [h1, ih, List.filter_cons]
        rw [show (decide (t ∉ acc)) = true by simp [ht]]
        simp only [if_true]
        rw [dedupFirst]
        have hff : l.filter (fun u => decide (u ∉ acc ++ [t])) =
            (l.filter (fun u => decide (u ∉ acc))).filter (fun u => u ≠ t) := by
          rw [List.filter_filter]
          apply List.filter_congr
          intro u _
          by_cases hut : u = t
          · simp [hut]
          · by_cases hua : u ∈ acc
            · simp [hut, hua]
            · simp [hut, hua]
        rw [hff]
        simp [List.append_assoc]

lemma get_weak_topics_eq_spec (h : List HistoryEntry) :
    get_weak_topics h = weak_topics_spec h := by
  unfold get_weak_topics weak_topics_spec
  rw [foldl_weak_eq h [], foldl_topic_eq]
  rw [List.nil_append]
  congr 1
  apply List.filter_eq_self.mpr
  intro a _
  simp

end LookLearn

/-- C6: `get_weak_topics` returns exactly the topics having at least one
incorrect history entry, without duplicates, in first-incorrect-occurrence
order (it equals the spec-side first-occurrence deduplication of the topics
of the incorrect entries); the spec scenario yields `[T2, T1, T3]`. -/
theorem LookLearn.weak_topics_characterization :
    (∀ h : List HistoryEntry,
        (get_weak_topics h).Nodup ∧
        get_weak_topics h = weak_topics_spec h ∧
        (∀ t : String, t ∈ get_weak_topics h ↔
          ∃ e ∈ h, e.is_correct = false ∧ e.topic = t)) ∧
    get_weak_topics example_history = ["T2", "T1", "T3"] := by
  refine ⟨fun h => ⟨?_, get_weak_topics_eq_spec h, fun t => ?_⟩, by decide⟩
  · rw [get_weak_topics_eq_spec]
    exact nodup_dedupFirst _
  · rw [get_weak_topics_eq_spec]
    unfold weak_topics_spec
    rw [mem_dedupFirst]
    simp only [List.mem_map, List.mem_filter, Bool.not_eq_true']
    constructor
    · rintro ⟨e, ⟨he, hic⟩, ht⟩
      exact ⟨e, he, hic, ht⟩
    · rintro ⟨e, he, hic, ht⟩
      exact ⟨e, ⟨he, hic⟩, ht⟩

/-- Witness for C6: the spec scenario history. -/
theorem LookLearn.weak_topics_characterization_witness :
    LookLearn.get_weak_topics LookLearn.example_history = ["T2", "T1", "T3"] :=
  LookLearn.weak_topics_characterization.2

/-- C7: `_parse_json_response` equals the spec's ordered strategy chain —
direct parse, fenced block, brace span, first success wins — on every input;
on the spec's fenced scenario the direct parse fails and the fenced-block
strategy recovers the object with field `question = "Q"`. -/
theorem LookLearn.parse_response_strategy_chain :
    (∀ t : String, _parse_json_response t = parse_structured_response_spec t) ∧
    json_loads fenced_example = none ∧
    extract_fenced fenced_example = some "\x7b\"question\":\"Q\"\x7d" ∧
    _parse_json_response fenced_example =
      some (Json.obj [("question", Json.str "Q")]) := by
  refine ⟨fun t => ?_, rfl, rfl, rfl⟩
  cases h1 : json_loads t <;>
    cases h2 : (extract_fenced t).bind json_loads <;>
      cases h3 : (brace_span t).bind json_loads <;>
        simp [_parse_json_response, parse_structured_response_spec, firstSuccess,
          h1, h2, h3]

/-- Witness for C7: the fenced scenario recovers the object. -/
theorem LookLearn.parse_response_strategy_chain_witness :
    LookLearn._parse_json_response LookLearn.fenced_example =
      some (LookLearn.Json.obj [("question", LookLearn.Json.str "Q")]) :=
  LookLearn.parse_response_strategy_chain.2.2.2

/-- C8: when every parsing strategy fails on the raw response, generating a
question leaves the history, performance window and current difficulty
untouched and stores a sentinel record flagged as an error and carrying the
parse-failure reason instead of a normally-answerable question. -/
theorem LookLearn.parse_failure_sentinel (s : SessionState) (raw : String)
    (hfail : _parse_json_response raw = none) :
    (generate_step s raw).questions_history = s.questions_history ∧
    (generate_step s raw).performance_window = s.performance_window ∧
    (generate_step s raw).current_difficulty = s.current_difficulty ∧
    (generate_step s raw).current_question =
      some (generate_question s.current_difficulty raw) ∧
    (generate_question s.current_difficulty raw).error = true ∧
    (generate_question s.current_difficulty raw).error_message =
      "Could not parse JSON from response" ∧
    (generate_question s.current_difficulty raw).question =
      "Error: " ++ "Could not parse JSON from response" := by
  refine ⟨rfl, rfl, rfl, rfl, ?_, ?_, ?_⟩ <;> simp [generate_question, hfail]

/-- Witness for C8: a plain-prose response at the initial state. -/
theorem LookLearn.parse_failure_sentinel_witness :
    (LookLearn.generate_step LookLearn.init_session_state
        LookLearn.prose_example).questions_history =
      LookLearn.init_session_state.questions_history ∧
    (LookLearn.generate_step LookLearn.init_session_state
        LookLearn.prose_example).performance_window =
      LookLearn.init_session_state.performance_window ∧
    (LookLearn.generate_step LookLearn.init_session_state
        LookLearn.prose_example).current_difficulty =
      LookLearn.init_session_state.current_difficulty ∧
    (LookLearn.generate_step LookLearn.init_session_state
        LookLearn.prose_example).current_question =
      some (LookLearn.generate_question
        LookLearn.init_session_state.current_difficulty LookLearn.prose_example) ∧
    (LookLearn.generate_question LookLearn.init_session_state.current_difficulty
        LookLearn.prose_example).error = true ∧
    (LookLearn.generate_question LookLearn.init_session_state.current_difficulty
        LookLearn.prose_example).error_message =
      "Could not parse JSON from response" ∧
    (LookLearn.generate_question LookLearn.init_session_state.current_difficulty
        LookLearn.prose_example).question =
      "Error: " ++ "Could not parse JSON from response" :=
  LookLearn.parse_failure_sentinel LookLearn.init_session_state
    LookLearn.prose_example rfl

/-- C9 counterexample: a parsed response with exactly 10 MCQs whose first item
has only 3 options is accepted unchanged by the `revise` validation — the
operation does not fail on a wrong option count, contrary to the claim. -/
theorem LookLearn.revise_wrong_option_count_accepted :
    LookLearn.revise_validate LookLearn.wrong_option_count_input =
      Except.ok LookLearn.wrong_option_count_input ∧
    LookLearn.wrong_option_count_input.mcqs.head?.map (fun m => m.options.length) =
      some 3 := by
  constructor
  · rfl
  · rfl

/-- C9 (amended): the `revise` validation fails with a descriptive error when
the key concepts are missing/empty or when fewer than 10 MCQs were generated
(no padding), does not inspect option counts, and truncates more than 10 MCQs
to exactly 10 (extra items dropped, not an error). -/
theorem LookLearn.revise_validation (p : ParsedAnalysis) :
    (p.key_concepts = [] →
      revise_validate p = Except.error "No key concepts generated") ∧
    (p.key_concepts ≠ [] → p.mcqs.length < 10 →
      revise_validate p =
        Except.error ("AI returned only " ++ toString p.mcqs.length ++ " MCQs")) ∧
    (p.key_concepts ≠ [] → 10 ≤ p.mcqs.length →
      revise_validate p = Except.ok { p with mcqs := p.mcqs.take 10 } ∧
      (p.mcqs.take 10).length = 10) := by
  refine ⟨fun hk => ?_, fun hk hn => ?_, fun hk hn => ⟨?_, ?_⟩⟩
  · simp [revise_validate, hk]
  · simp [revise_validate, hk, hn]
  · have : ¬ p.mcqs.length < 10 := by omega
    simp [revise_validate, hk, this]
  · rw [List.length_take]
    omega

/-- Witness for C9: eleven MCQs get truncated to exactly ten. -/
theorem LookLearn.revise_validation_witness :
    LookLearn.revise_validate LookLearn.eleven_mcq_input =
      Except.ok { LookLearn.eleven_mcq_input with
        mcqs := LookLearn.eleven_mcq_input.mcqs.take 10 } ∧
    (LookLearn.eleven_mcq_input.mcqs.take 10).length = 10 :=
  (LookLearn.revise_validation LookLearn.eleven_mcq_input).2.2 (by decide) (by decide)

/-- C10: `evaluate_answer` marks the answer correct exactly when the upper-cased
answer letters agree; the verdict is independent of the question text, options,
document content and chat oracle; and for a correct answer the result is the
fixed success feedback, identical for every oracle (no model call). -/
theorem LookLearn.evaluate_answer_case_insensitive
    (chat chat2 : String → Except String String)
    (question question2 user_answer correct_answer content content2 : String)
    (options options2 : List (String × String)) :
    ((evaluate_answer chat question user_answer correct_answer options content).is_correct
        = decide (str_upper user_answer = str_upper correct_answer)) ∧
    ((evaluate_answer chat question user_answer correct_answer options content).is_correct
        = (evaluate_answer chat2 question2 user_answer correct_answer options2
            content2).is_correct) ∧
    (str_upper user_answer = str_upper correct_answer →
      evaluate_answer chat question user_answer correct_answer options content =
        { is_correct := true, feedback := success_feedback_text, suggestion := none } ∧
      evaluate_answer chat question user_answer correct_answer options content =
        evaluate_answer chat2 question2 user_answer correct_answer options2 content2) := by
  by_cases h : str_upper user_answer = str_upper correct_answer
  · refine ⟨?_, ?_, fun _ => ⟨?_, ?_⟩⟩ <;> simp [evaluate_answer, h]
  · refine ⟨?_, ?_, fun hcontra => absurd hcontra h⟩
    · unfold evaluate_answer
      rw [if_neg h]
      cases chat (feedback_prompt question user_answer correct_answer options) <;>
        simp [h]
    · unfold evaluate_answer
      rw [if_neg h, if_neg h]
      cases chat (feedback_prompt question user_answer correct_answer options) <;>
        cases chat2 (feedback_prompt question2 user_answer correct_answer options2) <;>
          rfl

/-- Witness for C10: a lower-case answer matches its upper-case key under a
failing oracle, and equals the evaluation under an echoing oracle with a
different question, options and content. -/
theorem LookLearn.evaluate_answer_case_insensitive_witness :
    ((LookLearn.evaluate_answer LookLearn.chat_fail "Q1" "a" "A" [] "doc").is_correct
        = decide (LookLearn.str_upper "a" = LookLearn.str_upper "A")) ∧
    LookLearn.evaluate_answer LookLearn.chat_fail "Q1" "a" "A" [] "doc" =
      LookLearn.evaluate_answer LookLearn.chat_echo "Other" "a" "A"
        [("A", "an option")] "other content" :=
  ⟨(LookLearn.evaluate_answer_case_insensitive LookLearn.chat_fail LookLearn.chat_echo
      "Q1" "Other" "a" "A" "doc" "other content" [] [("A", "an option")]).1,
   ((LookLearn.evaluate_answer_case_insensitive LookLearn.chat_fail LookLearn.chat_echo
      "Q1" "Other" "a" "A" "doc" "other content" [] [("A", "an option")]).2.2
      (by decide)).2⟩
